import Mathlib

/-!
Verification development for `src/ext/live_buttons.py` (Live Buttons Manager
with Shop Integration).  The Python module is shallowly embedded: each handler
becomes a pure Lean function from an explicit environment (the outcomes of its
awaited backend calls) and explicit state (lock table, manager state) to a
result together with the list of calls it performed, in order.
-/

namespace LiveButtons

/-- User-facing message identifiers, mirroring the `MESSAGES.ERROR` /
`MESSAGES.INFO` constants used by `live_buttons.py`.  `backend s` stands for a
verbatim error string taken from a backend response
(e.g. `growid_response.error`). -/
inductive Msg where
  | RATE_LIMIT
  | INVALID_AMOUNT
  | TIMEOUT
  | TRANSACTION_TIMEOUT
  | TRANSACTION_FAILED
  | MAINTENANCE
  | COOLDOWN
  | USER_BLACKLISTED
  | SYSTEM_BUSY
  | NO_PRODUCTS
  | OUT_OF_STOCK
  | REGISTRATION_FAILED
  | NOT_REGISTERED
  | BALANCE_FAILED
  | WORLD_INFO_FAILED
  | HISTORY_FAILED
  | NO_HISTORY
  | backend (s : String)
  deriving DecidableEq, Repr

/-- One observable call made by a handler: cache operations carry their key
(and for `cacheSet` the TTL in seconds and whether the write succeeded),
service calls record which collaborator was invoked.  `processPurchase`
records the timeout budget (seconds) the call was wrapped in. -/
inductive Event where
  | cacheGet (key : String)
  | cacheSet (key : String) (ttl : Nat) (ok : Bool)
  | cacheDelete (key : String) (ok : Bool)
  | isMaintenanceMode
  | checkBlacklist
  | getGrowid
  | getBalance
  | getTransactionHistory (limit : Nat)
  | getDailyLimit
  | getDailyUsage
  | getWorldInfo
  | getAllProducts
  | getStockCount (code : String)
  | queueAdd (qty : Int)
  | processPurchase (qty : Int) (timeoutS : Nat)
  deriving DecidableEq, Repr

/-- Calls to the balance, product or transaction backend services (the cache
and the admin service are separate collaborators). -/
def Event.isBackendService : Event → Bool
  | .getGrowid => true
  | .getBalance => true
  | .getTransactionHistory _ => true
  | .getDailyLimit => true
  | .getDailyUsage => true
  | .getWorldInfo => true
  | .getAllProducts => true
  | .getStockCount _ => true
  | .queueAdd _ => true
  | .processPurchase _ _ => true
  | _ => false

/-- Python `str.strip()` with no argument: remove leading and trailing
whitespace. -/
def pyStrip (s : String) : String :=
  let ws := fun c => Char.isWhitespace c
  ⟨((((s.toList).dropWhile ws).reverse).dropWhile ws).reverse⟩

/-- Python `str.upper()` on the ASCII range. -/
def pyUpper (s : String) : String :=
  ⟨(s.toList).map Char.toUpper⟩

/-- Digit-string to number; `none` unless the list is a nonempty run of
decimal digits. -/
def digitsToNat (cs : List Char) : Option Nat :=
  if cs ≠ [] ∧ cs.all Char.isDigit then
    some (cs.foldl (fun a c => a * 10 + (c.toNat - 48)) 0)
  else none

/-- Core of Python's built-in `int(str)` conversion as used at
`quantity = int(self.quantity.value)`: optional surrounding whitespace, an
optional sign, then decimal digits; anything else raises `ValueError`
(returns `none` here).  Digit-group underscores are not modelled. -/
def pyParseInt (s : String) : Option Int :=
  match (pyStrip s).toList with
  | '-' :: rest => (digitsToNat rest).map (fun n => -(n : Int))
  | '+' :: rest => (digitsToNat rest).map (fun n => (n : Int))
  | cs => (digitsToNat cs).map (fun n => (n : Int))

/-- Quantity validation from `PurchaseModal.on_submit`:
`quantity = int(...)`, then `if quantity <= 0 or quantity > 999: raise
ValueError(INVALID_AMOUNT)`; a parse failure is caught by the surrounding
`except ValueError` and re-raised as `INVALID_AMOUNT`. -/
def validateQuantity (s : String) : Except Msg Int :=
  match pyParseInt s with
  | none => .error .INVALID_AMOUNT
  | some q => if q ≤ 0 ∨ q > 999 then .error .INVALID_AMOUNT else .ok q

/-- Per-attempt success flags of a `while retry_count < 3` retry loop: one
attempt per iteration, stopping after the first success; `o1 o2 o3` are the
outcomes of the three potential attempts. -/
def retryOutcomes (o1 o2 o3 : Bool) : List Bool :=
  if o1 then [true]
  else if o2 then [false, true]
  else if o3 then [false, false, true]
  else [false, false, false]

/-- Events of the `while retry_count < 3` cache-`set` loop in `on_submit`. -/
def setAttemptEvents (key : String) (ttl : Nat) (o1 o2 o3 : Bool) : List Event :=
  (retryOutcomes o1 o2 o3).map (fun b => Event.cacheSet key ttl b)

/-- Events of one `while retry_count < 3` cache-`delete` loop in `on_submit`
(per-attempt outcomes `t.1, t.2.1, t.2.2`); failures are logged and
swallowed. -/
def delAttemptEvents (key : String) (t : Bool × Bool × Bool) : List Event :=
  (retryOutcomes t.1 t.2.1 t.2.2).map (fun b => Event.cacheDelete key b)

/-- Outcome of the `get_growid` call in `on_submit` (wrapped in a 10s
timeout): timeout, failure response (`success` false, carrying `error`), or a
successful response carrying the GrowID. -/
inductive GrowidOutcome where
  | timesOut
  | failure (err : String)
  | ok (g : String)
  deriving DecidableEq, Repr

/-- Outcome of the synchronous `process_purchase` call (30s timeout). -/
inductive PurchaseOutcome where
  | timesOut
  | failure (err : String)
  | success
  deriving DecidableEq, Repr

/-- Environment of one `PurchaseModal.on_submit` run: the behaviour of every
awaited collaborator.  `maintenance` records whether maintenance mode is
active; `on_submit` contains no maintenance check, so the field is never
read by `onSubmit`. -/
structure SubmitEnv where
  maintenance : Bool
  rateLimitHit : Bool
  set1 : Bool
  set2 : Bool
  set3 : Bool
  growid : GrowidOutcome
  purchase : PurchaseOutcome
  delBalance : Bool × Bool × Bool
  delStock : Bool × Bool × Bool
  delHistory : Bool × Bool × Bool
  deriving DecidableEq, Repr

/-- Result of one `on_submit` run.  `errBeforeDefer` is the rate-limit
rejection sent via `interaction.response` (before `defer`), `errAfterDefer`
a `ValueError` rendered via `followup` after the deferral. -/
inductive SubmitResult where
  | errBeforeDefer (m : Msg)
  | errAfterDefer (m : Msg)
  | processingAck
  | purchaseSuccess (qty : Int)
  deriving DecidableEq, Repr

/-- Rate-limit key `f"purchase_limit_{interaction.user.id}"`. -/
def purchaseLimitKey (uid : String) : String := "purchase_limit_" ++ uid

/-- The events `on_submit` performs before any input validation: the
rate-limit read and, when it misses, the rate-limit `set` attempts
(`expires_in=300`). -/
def submitPreEvents (env : SubmitEnv) (uid : String) : List Event :=
  Event.cacheGet (purchaseLimitKey uid) ::
    setAttemptEvents (purchaseLimitKey uid) 300 env.set1 env.set2 env.set3

/-- `PurchaseModal.on_submit` from the point after the rate-limit key was
set: validate the product code and quantity, fetch the GrowID (10s timeout),
then either enqueue (`quantity > 10`) or purchase synchronously (30s timeout)
and invalidate the derived caches.  Returns the result and the events after
`submitPreEvents`. -/
def onSubmitAfterSet (env : SubmitEnv) (uid codeInput qtyInput : String) :
    SubmitResult × List Event :=
  let productCode := pyUpper (pyStrip codeInput)
  match validateQuantity qtyInput with
  | .error m => (.errAfterDefer m, [])
  | .ok qty =>
    match env.growid with
    | .timesOut => (.errAfterDefer .TIMEOUT, [.getGrowid])
    | .failure e => (.errAfterDefer (.backend e), [.getGrowid])
    | .ok g =>
      if qty > 10 then
        (.processingAck, [.getGrowid, .queueAdd qty])
      else
        match env.purchase with
        | .timesOut =>
            (.errAfterDefer .TRANSACTION_TIMEOUT, [.getGrowid, .processPurchase qty 30])
        | .failure e =>
            (.errAfterDefer (.backend e), [.getGrowid, .processPurchase qty 30])
        | .success =>
            (.purchaseSuccess qty,
              [.getGrowid, .processPurchase qty 30]
                ++ delAttemptEvents ("balance_" ++ g) env.delBalance
                ++ delAttemptEvents ("stock_" ++ productCode) env.delStock
                ++ delAttemptEvents ("history_" ++ uid) env.delHistory)

/-- `PurchaseModal.on_submit` (lines 96-266): rate-limit read; on a hit,
`ValueError(RATE_LIMIT)` answered before the deferral; otherwise defer, set
the rate-limit key (retried up to 3 times, failures swallowed), then the
rest of the pipeline.  Note there is no maintenance-mode check anywhere in
this handler. -/
def onSubmit (env : SubmitEnv) (uid codeInput qtyInput : String) :
    SubmitResult × List Event :=
  if env.rateLimitHit then
    (.errBeforeDefer .RATE_LIMIT, [.cacheGet (purchaseLimitKey uid)])
  else
    let rest := onSubmitAfterSet env uid codeInput qtyInput
    (rest.1, submitPreEvents env uid ++ rest.2)

example : validateQuantity "5" = .ok 5 := rfl
example : validateQuantity "0" = .error .INVALID_AMOUNT := rfl
example : validateQuantity "1000" = .error .INVALID_AMOUNT := rfl
example : validateQuantity "abc" = .error .INVALID_AMOUNT := rfl

lemma mem_setAttemptEvents {x : Event} {k : String} {t : Nat} {o1 o2 o3 : Bool}
    (h : x ∈ setAttemptEvents k t o1 o2 o3) : ∃ b, x = Event.cacheSet k t b := by
  rcases List.mem_map.mp h with ⟨b, _, hb⟩
  exact ⟨b, hb.symm⟩

lemma mem_delAttemptEvents {x : Event} {k : String} {t : Bool × Bool × Bool}
    (h : x ∈ delAttemptEvents k t) : ∃ b, x = Event.cacheDelete k b := by
  rcases List.mem_map.mp h with ⟨b, _, hb⟩
  exact ⟨b, hb.symm⟩

lemma cacheSet_true_mem_setAttemptEvents {k : String} {t : Nat} {o1 o2 o3 : Bool}
    (h : (o1 || o2 || o3) = true) :
    Event.cacheSet k t true ∈ setAttemptEvents k t o1 o2 o3 := by
  refine List.mem_map.mpr ⟨true, ?_, rfl⟩
  unfold retryOutcomes
  cases o1 <;> cases o2 <;> cases o3 <;> simp_all

lemma backend_not_mem_submitPreEvents (env : SubmitEnv) (uid : String) {e : Event}
    (hb : e.isBackendService = true) : e ∉ submitPreEvents env uid := by
  intro h
  simp only [submitPreEvents, List.mem_cons] at h
  rcases h with h | h
  · subst h; simp [Event.isBackendService] at hb
  · rcases mem_setAttemptEvents h with ⟨b, rfl⟩
    simp [Event.isBackendService] at hb

lemma afterSet_no_cacheSet (env : SubmitEnv) (uid c q : String) :
    ∀ e ∈ (onSubmitAfterSet env uid c q).2, ∀ k t b, e ≠ Event.cacheSet k t b := by
  unfold onSubmitAfterSet
  rcases validateQuantity q with m | qty
  · simp
  · rcases env.growid with _ | err | g
    · simp
    · simp
    · by_cases h10 : qty > 10
      · simp [h10]
      · rcases env.purchase with _ | err | _
        · simp [h10]
        · simp [h10]
        · intro e he k t b hne
          subst hne
          simp only [h10, ite_false, List.mem_append, List.mem_cons,
            List.not_mem_nil, or_false] at he
          rcases he with (((h | h) | h) | h) | h
          · exact Event.noConfusion h
          · exact Event.noConfusion h
          · rcases mem_delAttemptEvents h with ⟨b', hb⟩; exact Event.noConfusion hb
          · rcases mem_delAttemptEvents h with ⟨b', hb⟩; exact Event.noConfusion hb
          · rcases mem_delAttemptEvents h with ⟨b', hb⟩; exact Event.noConfusion hb

/-- A fully successful environment for `on_submit`: rate limit misses, every
cache write and delete succeeds on the first try, the GrowID lookup succeeds
and the synchronous purchase succeeds.  `maintenance := false`. -/
def submitEnvOk : SubmitEnv :=
  { maintenance := false
    rateLimitHit := false
    set1 := true, set2 := true, set3 := true
    growid := .ok "GROW"
    purchase := .success
    delBalance := (true, true, true)
    delStock := (true, true, true)
    delHistory := (true, true, true) }

/-- The same environment with maintenance mode active. -/
def submitEnvMaint : SubmitEnv := { submitEnvOk with maintenance := true }

/-- C5: purchase quantity validation accepts exactly the integers 1 through
999: `"0"` and `"1000"` are rejected as `INVALID_AMOUNT` (ValidationError),
`"1"` and `"999"` pass, any unparseable input is rejected, and inside
`on_submit` a validation failure is answered as the corresponding error. -/
theorem C5_quantity_validation :
    validateQuantity "0" = .error .INVALID_AMOUNT ∧
    validateQuantity "1000" = .error .INVALID_AMOUNT ∧
    validateQuantity "1" = .ok 1 ∧
    validateQuantity "999" = .ok 999 ∧
    (∀ s, pyParseInt s = none → validateQuantity s = .error .INVALID_AMOUNT) ∧
    (∀ (env : SubmitEnv) (uid code s : String) (m : Msg),
      env.rateLimitHit = false →
      validateQuantity s = .error m →
      (onSubmit env uid code s).1 = .errAfterDefer m) := by
  refine ⟨rfl, rfl, rfl, rfl, ?_, ?_⟩
  · intro s h
    simp [validateQuantity, h]
  · intro env uid code s m hrl hv
    simp [onSubmit, hrl, onSubmitAfterSet, hv]

/-- Witness for C5 at concrete inputs. -/
theorem C5_quantity_validation_witness :
    validateQuantity "abc" = .error .INVALID_AMOUNT ∧
    (onSubmit submitEnvOk "42" "DL1" "0").1 = .errAfterDefer .INVALID_AMOUNT :=
  ⟨C5_quantity_validation.2.2.2.2.1 "abc" rfl,
   C5_quantity_validation.2.2.2.2.2 submitEnvOk "42" "DL1" "0" .INVALID_AMOUNT rfl rfl⟩

/-- C6: for every validated purchase the routing boundary is `quantity > 10`:
above it the transaction is enqueued (`queueAdd`) and answered with the
immediate processing acknowledgment, with no synchronous purchase call; at or
below it the synchronous `process_purchase` call is made under the 30s
timeout, nothing is enqueued, and the final outcome (timeout, failure,
success) is returned inline. -/
theorem C6_purchase_routing :
    ∀ (env : SubmitEnv) (uid code qs : String) (q : Int) (g : String),
      env.rateLimitHit = false →
      validateQuantity qs = .ok q →
      env.growid = .ok g →
      ((q > 10 →
          (onSubmit env uid code qs).1 = .processingAck ∧
          Event.queueAdd q ∈ (onSubmit env uid code qs).2 ∧
          ∀ t, Event.processPurchase q t ∉ (onSubmit env uid code qs).2) ∧
       (q ≤ 10 →
          Event.processPurchase q 30 ∈ (onSubmit env uid code qs).2 ∧
          (∀ x, Event.queueAdd x ∉ (onSubmit env uid code qs).2) ∧
          (env.purchase = .timesOut →
            (onSubmit env uid code qs).1 = .errAfterDefer .TRANSACTION_TIMEOUT) ∧
          (∀ e, env.purchase = .failure e →
            (onSubmit env uid code qs).1 = .errAfterDefer (.backend e)) ∧
          (env.purchase = .success →
            (onSubmit env uid code qs).1 = .purchaseSuccess q))) := by
  intro env uid code qs q g hrl hv hg
  constructor
  · intro h10
    refine ⟨?_, ?_, ?_⟩
    · simp [onSubmit, hrl, onSubmitAfterSet, hv, hg, h10]
    · simp [onSubmit, hrl, onSubmitAfterSet, hv, hg, h10]
    · intro t hmem
      simp only [onSubmit, hrl, Bool.false_eq_true, ite_false,
        List.mem_append] at hmem
      rcases hmem with hmem | hmem
      · exact backend_not_mem_submitPreEvents env uid (by rfl) hmem
      · simp [onSubmitAfterSet, hv, hg, h10] at hmem
  · intro h10
    have hn : ¬ q > 10 := by omega
    refine ⟨?_, ?_, ?_, ?_, ?_⟩
    · rcases hp : env.purchase with _ | err | _ <;>
        simp [onSubmit, hrl, onSubmitAfterSet, hv, hg, hn, hp]
    · intro x hmem
      simp only [onSubmit, hrl, Bool.false_eq_true, ite_false,
        List.mem_append] at hmem
      rcases hmem with hmem | hmem
      · exact backend_not_mem_submitPreEvents env uid (by rfl) hmem
      · simp only [onSubmitAfterSet, hv, hg, hn, ite_false] at hmem
        rcases hp : env.purchase with _ | err | _ <;> simp only [hp] at hmem
        · simp at hmem
        · simp at hmem
        · simp only [List.mem_append, List.mem_cons, List.not_mem_nil,
            or_false] at hmem
          rcases hmem with (((h | h) | h) | h) | h
          · exact Event.noConfusion h
          · exact Event.noConfusion h
          · rcases mem_delAttemptEvents h with ⟨b, hb⟩; exact Event.noConfusion hb
          · rcases mem_delAttemptEvents h with ⟨b, hb⟩; exact Event.noConfusion hb
          · rcases mem_delAttemptEvents h with ⟨b, hb⟩; exact Event.noConfusion hb
    · intro hp
      simp [onSubmit, hrl, onSubmitAfterSet, hv, hg, hn, hp]
    · intro e hp
      simp [onSubmit, hrl, onSubmitAfterSet, hv, hg, hn, hp]
    · intro hp
      simp [onSubmit, hrl, onSubmitAfterSet, hv, hg, hn, hp]

/-- Witness for C6: quantity 11 is queued, quantity 5 goes through the
synchronous purchase call. -/
theorem C6_purchase_routing_witness :
    (onSubmit submitEnvOk "42" "DL1" "11").1 = .processingAck ∧
    Event.processPurchase 5 30 ∈ (onSubmit submitEnvOk "42" "DL1" "5").2 := by
  constructor
  · exact ((C6_purchase_routing submitEnvOk "42" "DL1" "11" 11 "GROW" rfl rfl rfl).1
      (by norm_num)).1
  · exact ((C6_purchase_routing submitEnvOk "42" "DL1" "5" 5 "GROW" rfl rfl rfl).2
      (by norm_num)).1

/-- C3 counterexample: the claim says every non-admin user action, including
submitting the purchase modal, short-circuits with the maintenance message
before any backend call when maintenance mode is active.  But
`PurchaseModal.on_submit` contains no maintenance check: with maintenance
mode active (`submitEnvMaint.maintenance = true`) a submission still calls
the balance service (`getGrowid`) and the transaction service
(`processPurchase`) and completes the purchase rather than answering with
the maintenance message. -/
theorem C3_maintenance_cex :
    submitEnvMaint.maintenance = true ∧
    (onSubmit submitEnvMaint "42" "DL1" "5").1 = .purchaseSuccess 5 ∧
    Event.getGrowid ∈ (onSubmit submitEnvMaint "42" "DL1" "5").2 ∧
    Event.processPurchase 5 30 ∈ (onSubmit submitEnvMaint "42" "DL1" "5").2 ∧
    (onSubmit submitEnvMaint "42" "DL1" "5").1 ≠ .errBeforeDefer .MAINTENANCE ∧
    (onSubmit submitEnvMaint "42" "DL1" "5").1 ≠ .errAfterDefer .MAINTENANCE := by
  refine ⟨rfl, rfl, ?_, ?_, by decide, by decide⟩
  · show Event.getGrowid ∈ (onSubmit submitEnvMaint "42" "DL1" "5").2
    decide
  · show Event.processPurchase 5 30 ∈ (onSubmit submitEnvMaint "42" "DL1" "5").2
    decide

/-- C10: when the initial rate-limit read misses and at least one of the
three cache-set attempts succeeds, `on_submit` writes the 300s rate-limit
key before validating the input and before any backend-service call; in
particular a submission rejected as a validation error has still incurred
the cooldown. -/
theorem C10_rate_limit_before_validation :
    ∀ (env : SubmitEnv) (uid code qs : String),
      env.rateLimitHit = false →
      (env.set1 || env.set2 || env.set3) = true →
      (Event.cacheSet (purchaseLimitKey uid) 300 true ∈ (onSubmit env uid code qs).2) ∧
      (∃ suf, (onSubmit env uid code qs).2 = submitPreEvents env uid ++ suf ∧
        (∀ e ∈ submitPreEvents env uid, e.isBackendService = false) ∧
        Event.cacheSet (purchaseLimitKey uid) 300 true ∈ submitPreEvents env uid ∧
        (∀ e ∈ suf, ∀ k t b, e ≠ Event.cacheSet k t b)) ∧
      (∀ m, validateQuantity qs = .error m →
        (onSubmit env uid code qs).1 = .errAfterDefer m ∧
        Event.cacheSet (purchaseLimitKey uid) 300 true ∈ (onSubmit env uid code qs).2) := by
  intro env uid code qs hrl hset
  have hpre : Event.cacheSet (purchaseLimitKey uid) 300 true ∈ submitPreEvents env uid := by
    simp only [submitPreEvents, List.mem_cons]
    exact Or.inr (cacheSet_true_mem_setAttemptEvents hset)
  have htr : (onSubmit env uid code qs).2 =
      submitPreEvents env uid ++ (onSubmitAfterSet env uid code qs).2 := by
    simp [onSubmit, hrl]
  refine ⟨?_, ⟨(onSubmitAfterSet env uid code qs).2, htr, ?_, hpre,
      afterSet_no_cacheSet env uid code qs⟩, ?_⟩
  · rw [htr]; exact List.mem_append_left _ hpre
  · intro e he
    simp only [submitPreEvents, List.mem_cons] at he
    rcases he with he | he
    · subst he; rfl
    · rcases mem_setAttemptEvents he with ⟨b, rfl⟩; rfl
  · intro m hv
    refine ⟨?_, ?_⟩
    · simp [onSubmit, hrl, onSubmitAfterSet, hv]
    · rw [htr]; exact List.mem_append_left _ hpre

/-- Witness for C10 at concrete inputs: the cooldown key is written even
though the quantity "0" is then rejected. -/
theorem C10_rate_limit_before_validation_witness :
    (onSubmit submitEnvOk "42" "DL1" "0").1 = .errAfterDefer .INVALID_AMOUNT ∧
    Event.cacheSet (purchaseLimitKey "42") 300 true ∈ (onSubmit submitEnvOk "42" "DL1" "0").2 :=
  (C10_rate_limit_before_validation submitEnvOk "42" "DL1" "0" rfl rfl).2.2
    .INVALID_AMOUNT rfl

/-! ## ShopView button callbacks and the per-user response lock -/

/-- Action kinds of the five `ShopView` buttons. -/
inductive ActionKind where
  | register
  | balance
  | worldInfo
  | buy
  | history
  deriving DecidableEq, Repr

/-- A response-lock key: user identifier together with the action kind. -/
abbrev LockKey := String × ActionKind

/-- Modelled from the spec: the response lock lives in
`ext/base_handler.BaseLockHandler`, which is not among the sources; only its
callers are.  Per the spec, the lock table is keyed by user (or
user+action), with at most one concurrent holder per key. -/
structure LockState where
  held : List LockKey
  deriving DecidableEq, Repr

/-- Modelled from the spec: `acquire_response_lock` is non-blocking — a
second acquire attempt while the key is held fails immediately rather than
queuing. -/
def acquireResponseLock (st : LockState) (k : LockKey) : Bool × LockState :=
  if k ∈ st.held then (false, st) else (true, ⟨k :: st.held⟩)

/-- Modelled from the spec: `release_response_lock` frees the key. -/
def releaseResponseLock (st : LockState) (k : LockKey) : LockState :=
  ⟨st.held.erase k⟩

/-- Outcome of one awaited call: it either raises an exception or returns a
value. -/
inductive Call (α : Type) where
  | raises
  | ok (a : α)
  deriving DecidableEq, Repr

/-- Outcome of an awaited call wrapped in an `asyncio.timeout` scope. -/
inductive TCall (α : Type) where
  | timesOut
  | raises
  | ok (a : α)
  deriving DecidableEq, Repr

/-- The duck-typed backend response shape used throughout the module:
`success` flag, optional `data`, error text. -/
structure ApiResp (α : Type) where
  success : Bool
  data : Option α
  error : String
  deriving DecidableEq, Repr

/-- Result of one button-callback invocation. -/
inductive CbResult where
  | cooldown
  | errorMsg (m : Msg)
  | registerModalShown (existing : Option String)
  | purchaseModalShown
  | info
  deriving DecidableEq, Repr

/-- How the `try` body of a callback exits: normal completion, a
`ValueError` (caught and rendered verbatim), or any other exception (caught
and rendered as the handler's generic failure message). -/
inductive BodyExit where
  | done (r : CbResult)
  | valueError (m : Msg)
  | unclassified
  deriving DecidableEq, Repr

/-- The `except ValueError` / `except Exception` dispatch shared by all
callbacks: a `ValueError` is shown verbatim, anything else as the
handler-specific generic message. -/
def responseOf (generic : Msg) : BodyExit → CbResult
  | .done r => r
  | .valueError m => .errorMsg m
  | .unclassified => .errorMsg generic

/-- The acquire / `try`-body / `finally`-release skeleton shared by all five
button callbacks: on a failed acquire, answer with the cooldown message and
stop; otherwise run the body and release the lock on every exit path. -/
def runCallback (key : LockKey) (generic : Msg) (body : BodyExit × List Event)
    (st : LockState) : CbResult × LockState × List Event :=
  let acq := acquireResponseLock st key
  if acq.1 = false then (.cooldown, acq.2, [])
  else (responseOf generic body.1, releaseResponseLock acq.2 key, body.2)

/-- Truthiness of `blacklist_check and blacklist_check.success and
blacklist_check.data`. -/
def blTruthy : Option (Bool × Bool) → Bool
  | none => false
  | some (s, d) => s && d

/-- Rate-limit key `f"register_limit_{interaction.user.id}"`. -/
def registerLimitKey (uid : String) : String := "register_limit_" ++ uid

/-- Rate-limit key `f"buy_button_{interaction.user.id}"`. -/
def buyLimitKey (uid : String) : String := "buy_button_" ++ uid

/-- Environment of one `register_callback` run. -/
structure RegisterEnv where
  maintenance : Call Bool
  rateLimitHit : Call Bool
  blacklist : Call (Option (Bool × Bool))
  growid : Call (ApiResp String)
  setLimit : Call Unit
  sendModal : Call Unit

/-- Body of `ShopView.register_callback` (lines 420-468): maintenance check,
rate-limit read, blacklist check, GrowID lookup (no raise on failure — it
only selects new-vs-update framing), rate-limit write (300s), send modal. -/
def registerBody (env : RegisterEnv) (uid : String) : BodyExit × List Event :=
  let t1 := [Event.isMaintenanceMode]
  match env.maintenance with
  | .raises => (.unclassified, t1)
  | .ok true => (.valueError .MAINTENANCE, t1)
  | .ok false =>
    let t2 := t1 ++ [Event.cacheGet (registerLimitKey uid)]
    match env.rateLimitHit with
    | .raises => (.unclassified, t2)
    | .ok true => (.valueError .RATE_LIMIT, t2)
    | .ok false =>
      let t3 := t2 ++ [Event.checkBlacklist]
      match env.blacklist with
      | .raises => (.unclassified, t3)
      | .ok bc =>
        if blTruthy bc then (.valueError .USER_BLACKLISTED, t3)
        else
          let t4 := t3 ++ [Event.getGrowid]
          match env.growid with
          | .raises => (.unclassified, t4)
          | .ok r =>
            let existing := if r.success then r.data else none
            match env.setLimit with
            | .raises =>
                (.unclassified, t4 ++ [Event.cacheSet (registerLimitKey uid) 300 false])
            | .ok _ =>
              let t5 := t4 ++ [Event.cacheSet (registerLimitKey uid) 300 true]
              match env.sendModal with
              | .raises => (.unclassified, t5)
              | .ok _ => (.done (.registerModalShown existing), t5)

/-- `ShopView.register_callback` (lines 411-470). -/
def registerCallback (env : RegisterEnv) (uid : String) (st : LockState) :
    CbResult × LockState × List Event :=
  runCallback (uid, .register) .REGISTRATION_FAILED (registerBody env uid) st

/-- Environment of one `balance_callback` run. -/
structure BalanceEnv where
  maintenance : Call Bool
  growid : Call (ApiResp String)
  balance : TCall (ApiResp Unit)
  history : TCall (ApiResp (List Unit))
  dailyLimit : Call Int
  dailyUsage : Call Int

/-- Body of `ShopView.balance_callback` (lines 487-590): maintenance check,
GrowID lookup (failure or missing data raises), balance read (10s timeout),
history read (10s timeout, failures swallowed), daily-limit reads (failures
swallowed). -/
def balanceBody (env : BalanceEnv) : BodyExit × List Event :=
  let t1 := [Event.isMaintenanceMode]
  match env.maintenance with
  | .raises => (.unclassified, t1)
  | .ok true => (.valueError .MAINTENANCE, t1)
  | .ok false =>
    let t2 := t1 ++ [Event.getGrowid]
    match env.growid with
    | .raises => (.unclassified, t2)
    | .ok r =>
      if r.success = false then (.valueError (.backend r.error), t2)
      else
        match r.data with
        | none => (.valueError .NOT_REGISTERED, t2)
        | some _ =>
          let t3 := t2 ++ [Event.getBalance]
          match env.balance with
          | .timesOut => (.valueError .TIMEOUT, t3)
          | .raises => (.unclassified, t3)
          | .ok rb =>
            if rb.success = false then (.valueError (.backend rb.error), t3)
            else
              let t4 := t3 ++ [Event.getTransactionHistory 3]
              match env.history with
              | _ =>
                match env.dailyLimit with
                | .raises => (.done .info, t4 ++ [Event.getDailyLimit])
                | .ok _ =>
                  match env.dailyUsage with
                  | _ => (.done .info, t4 ++ [Event.getDailyLimit, Event.getDailyUsage])

/-- `ShopView.balance_callback` (lines 477-592). -/
def balanceCallback (env : BalanceEnv) (uid : String) (st : LockState) :
    CbResult × LockState × List Event :=
  runCallback (uid, .balance) .BALANCE_FAILED (balanceBody env) st

/-- Environment of one `world_info_callback` run. -/
structure WorldEnv where
  maintenance : Call Bool
  world : TCall (ApiResp Unit)

/-- Body of `ShopView.world_info_callback` (lines 608-679): maintenance
check, then the world-info read under a 10s timeout. -/
def worldInfoBody (env : WorldEnv) : BodyExit × List Event :=
  let t1 := [Event.isMaintenanceMode]
  match env.maintenance with
  | .raises => (.unclassified, t1)
  | .ok true => (.valueError .MAINTENANCE, t1)
  | .ok false =>
    let t2 := t1 ++ [Event.getWorldInfo]
    match env.world with
    | .timesOut => (.valueError .TIMEOUT, t2)
    | .raises => (.unclassified, t2)
    | .ok r =>
      if r.success = false then (.valueError (.backend r.error), t2)
      else (.done .info, t2)

/-- `ShopView.world_info_callback` (lines 599-691). -/
def worldInfoCallback (env : WorldEnv) (uid : String) (st : LockState) :
    CbResult × LockState × List Event :=
  runCallback (uid, .worldInfo) .WORLD_INFO_FAILED (worldInfoBody env) st

/-- One product returned by `get_all_products`, with the outcome of its
`get_stock_count` check (5s timeout). -/
structure ProductEntry where
  code : String
  stock : TCall (ApiResp Int)
  deriving DecidableEq, Repr

/-- The filter of the buy callback's stock loop: keep a product iff its
stock check returned success with data > 0; timeouts and exceptions skip the
product. -/
def stockKeep : TCall (ApiResp Int) → Bool
  | .ok r => r.success && (match r.data with | some c => decide (c > 0) | none => false)
  | _ => false

/-- The stock-count calls the buy callback issues, one per product. -/
def stockFilterEvents (ps : List ProductEntry) : List Event :=
  ps.map (fun p => Event.getStockCount p.code)

/-- `available_products` after the stock filter loop. -/
def availableProducts (ps : List ProductEntry) : List ProductEntry :=
  ps.filter (fun p => stockKeep p.stock)

/-- Environment of one `buy_callback` run. -/
structure BuyEnv where
  rateLimitHit : Call Bool
  queueSize : Call Nat
  maintenance : Call Bool
  blacklist : Call (Option (Bool × Bool))
  growid : Call (ApiResp String)
  products : TCall (ApiResp (List ProductEntry))
  setLimit : Call Unit
  sendModal : Call Unit

/-- Body of `ShopView.buy_callback` (lines 707-775): rate-limit read, queue
size check (> 50 is busy), maintenance check, blacklist check (a `None`
response raises `AttributeError`, hence unclassified), GrowID verification,
product list (10s timeout) and per-product stock filter, then the purchase
modal and the 60s rate-limit write. -/
def buyBody (env : BuyEnv) (uid : String) : BodyExit × List Event :=
  let t1 := [Event.cacheGet (buyLimitKey uid)]
  match env.rateLimitHit with
  | .raises => (.unclassified, t1)
  | .ok true => (.valueError .RATE_LIMIT, t1)
  | .ok false =>
    match env.queueSize with
    | .raises => (.unclassified, t1)
    | .ok n =>
      if n > 50 then (.valueError .SYSTEM_BUSY, t1)
      else
        let t2 := t1 ++ [Event.isMaintenanceMode]
        match env.maintenance with
        | .raises => (.unclassified, t2)
        | .ok true => (.valueError .MAINTENANCE, t2)
        | .ok false =>
          let t3 := t2 ++ [Event.checkBlacklist]
          match env.blacklist with
          | .raises => (.unclassified, t3)
          | .ok none => (.unclassified, t3)
          | .ok (some (s, d)) =>
            if s && d then (.valueError .USER_BLACKLISTED, t3)
            else
              let t4 := t3 ++ [Event.getGrowid]
              match env.growid with
              | .raises => (.unclassified, t4)
              | .ok r =>
                if r.success = false then (.valueError (.backend r.error), t4)
                else
                  let t5 := t4 ++ [Event.getAllProducts]
                  match env.products with
                  | .timesOut => (.valueError .TIMEOUT, t5)
                  | .raises => (.unclassified, t5)
                  | .ok pr =>
                    let ps := pr.data.getD []
                    if pr.success = false ∨ ps = [] then (.valueError .NO_PRODUCTS, t5)
                    else
                      let t6 := t5 ++ stockFilterEvents ps
                      if availableProducts ps = [] then (.valueError .OUT_OF_STOCK, t6)
                      else
                        match env.setLimit with
                        | .raises =>
                            (.unclassified, t6 ++ [Event.cacheSet (buyLimitKey uid) 60 false])
                        | .ok _ =>
                          let t7 := t6 ++ [Event.cacheSet (buyLimitKey uid) 60 true]
                          match env.sendModal with
                          | .raises => (.unclassified, t7)
                          | .ok _ => (.done .purchaseModalShown, t7)

/-- `ShopView.buy_callback` (lines 698-786). -/
def buyCallback (env : BuyEnv) (uid : String) (st : LockState) :
    CbResult × LockState × List Event :=
  runCallback (uid, .buy) .TRANSACTION_FAILED (buyBody env uid) st

/-- Environment of one `history_callback` run. -/
structure HistoryEnv where
  maintenance : Call Bool
  growid : Call (ApiResp String)
  history : TCall (ApiResp (List Unit))

/-- Body of `ShopView.history_callback` (lines 803-877): maintenance check,
GrowID lookup (failure raises), history read (10s timeout), empty history
raises `NO_HISTORY`. -/
def historyBody (env : HistoryEnv) : BodyExit × List Event :=
  let t1 := [Event.isMaintenanceMode]
  match env.maintenance with
  | .raises => (.unclassified, t1)
  | .ok true => (.valueError .MAINTENANCE, t1)
  | .ok false =>
    let t2 := t1 ++ [Event.getGrowid]
    match env.growid with
    | .raises => (.unclassified, t2)
    | .ok r =>
      if r.success = false then (.valueError (.backend r.error), t2)
      else
        let t3 := t2 ++ [Event.getTransactionHistory 5]
        match env.history with
        | .timesOut => (.valueError .TIMEOUT, t3)
        | .raises => (.unclassified, t3)
        | .ok rh =>
          if rh.success = false then (.valueError (.backend rh.error), t3)
          else
            match rh.data with
            | none => (.valueError .NO_HISTORY, t3)
            | some [] => (.valueError .NO_HISTORY, t3)
            | some (_ :: _) => (.done .info, t3)

/-- `ShopView.history_callback` (lines 793-889). -/
def historyCallback (env : HistoryEnv) (uid : String) (st : LockState) :
    CbResult × LockState × List Event :=
  runCallback (uid, .history) .HISTORY_FAILED (historyBody env) st

lemma runCallback_lock_free {key : LockKey} (generic : Msg)
    (body : BodyExit × List Event) {st : LockState} (h : key ∉ st.held) :
    (runCallback key generic body st).2.1 = st := by
  simp [runCallback, acquireResponseLock, releaseResponseLock, h]

lemma runCallback_lock_held {key : LockKey} (generic : Msg)
    (body : BodyExit × List Event) {st : LockState} (h : key ∈ st.held) :
    runCallback key generic body st = (.cooldown, st, []) := by
  simp [runCallback, acquireResponseLock, h]

lemma runCallback_free {key : LockKey} (generic : Msg)
    (body : BodyExit × List Event) {st : LockState} (h : key ∉ st.held) :
    runCallback key generic body st = (responseOf generic body.1, st, body.2) := by
  simp [runCallback, acquireResponseLock, releaseResponseLock, h]

lemma balanceBody_events (env : BalanceEnv) :
    ∀ e ∈ (balanceBody env).2,
      e ∈ [Event.isMaintenanceMode, Event.getGrowid, Event.getBalance,
        Event.getTransactionHistory 3, Event.getDailyLimit, Event.getDailyUsage] := by
  unfold balanceBody
  rcases env.maintenance with _ | b
  · simp
  · cases b
    · rcases env.growid with _ | r
      · simp
      · rcases r with ⟨s, d, er⟩
        cases s
        · simp
        · cases d
          · simp
          · rcases env.balance with _ | _ | rb
            · simp
            · simp
            · rcases rb with ⟨sb, db, eb⟩
              cases sb
              · simp
              · rcases env.history with _ | _ | rh <;>
                  rcases env.dailyLimit with _ | dl <;> simp
    · simp

lemma worldInfoBody_events (env : WorldEnv) :
    ∀ e ∈ (worldInfoBody env).2,
      e ∈ [Event.isMaintenanceMode, Event.getWorldInfo] := by
  unfold worldInfoBody
  rcases env.maintenance with _ | b
  · simp
  · cases b
    · rcases env.world with _ | _ | r
      · simp
      · simp
      · rcases r with ⟨s, d, er⟩
        cases s <;> simp
    · simp

lemma historyBody_events (env : HistoryEnv) :
    ∀ e ∈ (historyBody env).2,
      e ∈ [Event.isMaintenanceMode, Event.getGrowid,
        Event.getTransactionHistory 5] := by
  unfold historyBody
  rcases env.maintenance with _ | b
  · simp
  · cases b
    · rcases env.growid with _ | r
      · simp
      · rcases r with ⟨s, d, er⟩
        cases s
        · simp
        · rcases env.history with _ | _ | rh
          · simp
          · simp
          · rcases rh with ⟨sh, dh, eh⟩
            cases sh
            · simp
            · cases dh with
              | none => simp
              | some l => cases l <;> simp
    · simp

/-- A fully successful environment for `register_callback`. -/
def registerEnvOk : RegisterEnv :=
  { maintenance := .ok false
    rateLimitHit := .ok false
    blacklist := .ok (some (true, false))
    growid := .ok ⟨true, some "GROW", ""⟩
    setLimit := .ok ()
    sendModal := .ok () }

/-- A fully successful environment for `balance_callback`. -/
def balanceEnvOk : BalanceEnv :=
  { maintenance := .ok false
    growid := .ok ⟨true, some "GROW", ""⟩
    balance := .ok ⟨true, some (), ""⟩
    history := .ok ⟨true, some [()], ""⟩
    dailyLimit := .ok 1000
    dailyUsage := .ok 0 }

/-- A fully successful environment for `world_info_callback`. -/
def worldEnvOk : WorldEnv :=
  { maintenance := .ok false
    world := .ok ⟨true, some (), ""⟩ }

/-- A fully successful environment for `buy_callback`. -/
def buyEnvOk : BuyEnv :=
  { rateLimitHit := .ok false
    queueSize := .ok 0
    maintenance := .ok false
    blacklist := .ok (some (true, false))
    growid := .ok ⟨true, some "GROW", ""⟩
    products := .ok ⟨true, some [⟨"DL1", .ok ⟨true, some 5, ""⟩⟩], ""⟩
    setLimit := .ok ()
    sendModal := .ok () }

/-- A fully successful environment for `history_callback`. -/
def historyEnvOk : HistoryEnv :=
  { maintenance := .ok false
    growid := .ok ⟨true, some "GROW", ""⟩
    history := .ok ⟨true, some [()], ""⟩ }

/-- C1: every button callback (register, balance, world info, buy, history)
that successfully acquires the per-user response lock releases it on every
exit path — success, validation error, timeout or unclassified error — so
after any invocation the lock table equals its initial state and in
particular the key for that user is free again. -/
theorem C1_lock_released_on_all_paths :
    ∀ (uid : String) (st : LockState) (envR : RegisterEnv) (envB : BalanceEnv)
      (envW : WorldEnv) (envY : BuyEnv) (envH : HistoryEnv),
      ((uid, .register) ∉ st.held → (registerCallback envR uid st).2.1 = st) ∧
      ((uid, .balance) ∉ st.held → (balanceCallback envB uid st).2.1 = st) ∧
      ((uid, .worldInfo) ∉ st.held → (worldInfoCallback envW uid st).2.1 = st) ∧
      ((uid, .buy) ∉ st.held → (buyCallback envY uid st).2.1 = st) ∧
      ((uid, .history) ∉ st.held → (historyCallback envH uid st).2.1 = st) := by
  intro uid st envR envB envW envY envH
  exact ⟨fun h => runCallback_lock_free _ _ h, fun h => runCallback_lock_free _ _ h,
    fun h => runCallback_lock_free _ _ h, fun h => runCallback_lock_free _ _ h,
    fun h => runCallback_lock_free _ _ h⟩

/-- Witness for C1: all five callbacks leave an initially empty lock table
empty. -/
theorem C1_lock_released_on_all_paths_witness :
    (registerCallback registerEnvOk "42" ⟨[]⟩).2.1 = ⟨[]⟩ ∧
    (balanceCallback balanceEnvOk "42" ⟨[]⟩).2.1 = ⟨[]⟩ ∧
    (worldInfoCallback worldEnvOk "42" ⟨[]⟩).2.1 = ⟨[]⟩ ∧
    (buyCallback buyEnvOk "42" ⟨[]⟩).2.1 = ⟨[]⟩ ∧
    (historyCallback historyEnvOk "42" ⟨[]⟩).2.1 = ⟨[]⟩ := by
  obtain ⟨h1, h2, h3, h4, h5⟩ := C1_lock_released_on_all_paths "42" ⟨[]⟩
    registerEnvOk balanceEnvOk worldEnvOk buyEnvOk historyEnvOk
  exact ⟨h1 (by simp), h2 (by simp), h3 (by simp), h4 (by simp), h5 (by simp)⟩

/-- C2 (lock semantics modelled from the spec, `ext/base_handler` not being
among the sources): the response lock admits at most one concurrent holder
per key — acquiring a held key fails immediately, non-blocking, leaving the
table unchanged — and when two requests for the same user and action
overlap, the first acquire succeeds while a second invocation issued during
the first one is answered with the cooldown message, performs no calls and
leaves the lock table unchanged. -/
theorem C2_single_holder_cooldown :
    ∀ (st : LockState) (uid : String) (envR : RegisterEnv) (envY : BuyEnv),
      (∀ k, k ∈ st.held → acquireResponseLock st k = (false, st)) ∧
      ((uid, .register) ∉ st.held →
        (acquireResponseLock st (uid, .register)).1 = true ∧
        registerCallback envR uid (acquireResponseLock st (uid, .register)).2 =
          (.cooldown, (acquireResponseLock st (uid, .register)).2, [])) ∧
      ((uid, .buy) ∉ st.held →
        (acquireResponseLock st (uid, .buy)).1 = true ∧
        buyCallback envY uid (acquireResponseLock st (uid, .buy)).2 =
          (.cooldown, (acquireResponseLock st (uid, .buy)).2, [])) := by
  intro st uid envR envY
  refine ⟨fun k hk => by simp [acquireResponseLock, hk], fun h => ⟨?_, ?_⟩,
    fun h => ⟨?_, ?_⟩⟩
  · simp [acquireResponseLock, h]
  · apply runCallback_lock_held
    simp [acquireResponseLock, h]
  · simp [acquireResponseLock, h]
  · apply runCallback_lock_held
    simp [acquireResponseLock, h]

/-- Witness for C2: on an empty lock table the first register request
acquires and a concurrent second one is answered with the cooldown
result. -/
theorem C2_single_holder_cooldown_witness :
    (acquireResponseLock ⟨[]⟩ ("42", .register)).1 = true ∧
    registerCallback registerEnvOk "42" (acquireResponseLock ⟨[]⟩ ("42", .register)).2 =
      (.cooldown, (acquireResponseLock ⟨[]⟩ ("42", .register)).2, []) :=
  (C2_single_holder_cooldown ⟨[]⟩ "42" registerEnvOk buyEnvOk).2.1 (by simp)

/-- C3 amended: with maintenance mode active, each of the five *button
callbacks* makes no balance/product/transaction service call; register,
balance, world info and history answer with the maintenance message, and so
does buy provided its earlier rate-limit and queue-size checks pass.  The
purchase modal's `on_submit` performs no maintenance check at all (see the
counterexample) and is therefore excluded. -/
theorem C3_maintenance_shortcircuit_amended :
    ∀ (uid : String) (st : LockState) (envR : RegisterEnv) (envB : BalanceEnv)
      (envW : WorldEnv) (envY : BuyEnv) (envH : HistoryEnv),
      (envR.maintenance = .ok true →
        (∀ e ∈ (registerCallback envR uid st).2.2, e.isBackendService = false) ∧
        ((uid, .register) ∉ st.held →
          (registerCallback envR uid st).1 = .errorMsg .MAINTENANCE)) ∧
      (envB.maintenance = .ok true →
        (∀ e ∈ (balanceCallback envB uid st).2.2, e.isBackendService = false) ∧
        ((uid, .balance) ∉ st.held →
          (balanceCallback envB uid st).1 = .errorMsg .MAINTENANCE)) ∧
      (envW.maintenance = .ok true →
        (∀ e ∈ (worldInfoCallback envW uid st).2.2, e.isBackendService = false) ∧
        ((uid, .worldInfo) ∉ st.held →
          (worldInfoCallback envW uid st).1 = .errorMsg .MAINTENANCE)) ∧
      (envH.maintenance = .ok true →
        (∀ e ∈ (historyCallback envH uid st).2.2, e.isBackendService = false) ∧
        ((uid, .history) ∉ st.held →
          (historyCallback envH uid st).1 = .errorMsg .MAINTENANCE)) ∧
      (envY.maintenance = .ok true →
        (∀ e ∈ (buyCallback envY uid st).2.2, e.isBackendService = false) ∧
        ((uid, .buy) ∉ st.held → envY.rateLimitHit = .ok false →
          ∀ n, envY.queueSize = .ok n → ¬ n > 50 →
          (buyCallback envY uid st).1 = .errorMsg .MAINTENANCE)) := by
  intro uid st envR envB envW envY envH
  refine ⟨fun hm => ⟨?_, fun hl => ?_⟩, fun hm => ⟨?_, fun hl => ?_⟩,
    fun hm => ⟨?_, fun hl => ?_⟩, fun hm => ⟨?_, fun hl => ?_⟩,
    fun hm => ⟨?_, fun hl hrl n hq hn => ?_⟩⟩
  · by_cases hl : (uid, ActionKind.register) ∈ st.held
    · simp [registerCallback, runCallback_lock_held _ _ hl]
    · simp [registerCallback, runCallback_free _ _ hl, registerBody, hm,
        Event.isBackendService]
  · simp [registerCallback, runCallback_free _ _ hl, registerBody, hm, responseOf]
  · by_cases hl : (uid, ActionKind.balance) ∈ st.held
    · simp [balanceCallback, runCallback_lock_held _ _ hl]
    · simp [balanceCallback, runCallback_free _ _ hl, balanceBody, hm,
        Event.isBackendService]
  · simp [balanceCallback, runCallback_free _ _ hl, balanceBody, hm, responseOf]
  · by_cases hl : (uid, ActionKind.worldInfo) ∈ st.held
    · simp [worldInfoCallback, runCallback_lock_held _ _ hl]
    · simp [worldInfoCallback, runCallback_free _ _ hl, worldInfoBody, hm,
        Event.isBackendService]
  · simp [worldInfoCallback, runCallback_free _ _ hl, worldInfoBody, hm, responseOf]
  · by_cases hl : (uid, ActionKind.history) ∈ st.held
    · simp [historyCallback, runCallback_lock_held _ _ hl]
    · simp [historyCallback, runCallback_free _ _ hl, historyBody, hm,
        Event.isBackendService]
  · simp [historyCallback, runCallback_free _ _ hl, historyBody, hm, responseOf]
  · by_cases hl : (uid, ActionKind.buy) ∈ st.held
    · simp [buyCallback, runCallback_lock_held _ _ hl]
    · rcases hrl : envY.rateLimitHit with _ | b
      · simp [buyCallback, runCallback_free _ _ hl, buyBody, hrl,
          Event.isBackendService]
      · cases b
        · rcases hq : envY.queueSize with _ | n
          · simp [buyCallback, runCallback_free _ _ hl, buyBody, hrl, hq,
              Event.isBackendService]
          · by_cases hn : n > 50
            · simp [buyCallback, runCallback_free _ _ hl, buyBody, hrl, hq, hn,
                Event.isBackendService]
            · simp [buyCallback, runCallback_free _ _ hl, buyBody, hrl, hq, hn,
                hm, Event.isBackendService]
        · simp [buyCallback, runCallback_free _ _ hl, buyBody, hrl,
            Event.isBackendService]
  · simp [buyCallback, runCallback_free _ _ hl, buyBody, hrl, hq, hn, hm,
      responseOf]

/-- Maintenance-active environments for the C3/C4 witness runs. -/
def registerEnvMaint : RegisterEnv := { registerEnvOk with maintenance := .ok true }

def balanceEnvMaint : BalanceEnv := { balanceEnvOk with maintenance := .ok true }

def worldEnvMaint : WorldEnv := { worldEnvOk with maintenance := .ok true }

def buyEnvMaint : BuyEnv := { buyEnvOk with maintenance := .ok true }

def historyEnvMaint : HistoryEnv := { historyEnvOk with maintenance := .ok true }

/-- Witness for the amended C3 at concrete inputs. -/
theorem C3_maintenance_shortcircuit_amended_witness :
    (registerCallback registerEnvMaint "42" ⟨[]⟩).1 = .errorMsg .MAINTENANCE ∧
    (buyCallback buyEnvMaint "42" ⟨[]⟩).1 = .errorMsg .MAINTENANCE := by
  obtain ⟨h1, h2, h3, h4, h5⟩ := C3_maintenance_shortcircuit_amended "42" ⟨[]⟩
    registerEnvMaint balanceEnvMaint worldEnvMaint buyEnvMaint historyEnvMaint
  exact ⟨(h1 rfl).2 (by simp), (h5 rfl).2 (by simp) rfl 0 rfl (by decide)⟩

/-- C4 counterexample: the claim orders the precondition checks as
maintenance, then blacklist, then rate limit in every handler.  In
`buy_callback` the rate-limit flag is read first: with both the rate limit
hit and maintenance active, the user gets the rate-limit error and the
maintenance flag is never consulted (nor the blacklist). -/
def buyEnvRateMaint : BuyEnv :=
  { buyEnvOk with rateLimitHit := .ok true, maintenance := .ok true }

/-- C4 counterexample theorem (see `buyEnvRateMaint`). -/
theorem C4_check_order_cex :
    buyEnvRateMaint.maintenance = .ok true ∧
    (buyCallback buyEnvRateMaint "42" ⟨[]⟩).1 = .errorMsg .RATE_LIMIT ∧
    (buyCallback buyEnvRateMaint "42" ⟨[]⟩).1 ≠ .errorMsg .MAINTENANCE ∧
    Event.isMaintenanceMode ∉ (buyCallback buyEnvRateMaint "42" ⟨[]⟩).2.2 ∧
    Event.checkBlacklist ∉ (buyCallback buyEnvRateMaint "42" ⟨[]⟩).2.2 := by
  decide

/-- C4 amended: the actual short-circuit orders are: `register_callback`
checks maintenance, then the rate-limit flag, then the blacklist;
`buy_callback` checks the rate-limit flag, then queue capacity, then
maintenance, then the blacklist; `balance_callback`, `world_info_callback`
and `history_callback` check only maintenance (no rate-limit read, no
blacklist check on any path). -/
theorem C4_check_order_amended :
    ∀ (uid : String) (st : LockState) (envR : RegisterEnv) (envY : BuyEnv)
      (envB : BalanceEnv) (envW : WorldEnv) (envH : HistoryEnv),
      (uid, .register) ∉ st.held → (uid, .buy) ∉ st.held →
      ((envR.maintenance = .ok true →
        (registerCallback envR uid st).1 = .errorMsg .MAINTENANCE ∧
        (∀ k, Event.cacheGet k ∉ (registerCallback envR uid st).2.2) ∧
        Event.checkBlacklist ∉ (registerCallback envR uid st).2.2) ∧
      (envR.maintenance = .ok false → envR.rateLimitHit = .ok true →
        (registerCallback envR uid st).1 = .errorMsg .RATE_LIMIT ∧
        Event.checkBlacklist ∉ (registerCallback envR uid st).2.2) ∧
      (∀ bc, envR.maintenance = .ok false → envR.rateLimitHit = .ok false →
        envR.blacklist = .ok bc → blTruthy bc = true →
        (registerCallback envR uid st).1 = .errorMsg .USER_BLACKLISTED)) ∧
      ((envY.rateLimitHit = .ok true →
        (buyCallback envY uid st).1 = .errorMsg .RATE_LIMIT ∧
        Event.isMaintenanceMode ∉ (buyCallback envY uid st).2.2 ∧
        Event.checkBlacklist ∉ (buyCallback envY uid st).2.2) ∧
      (∀ n, envY.rateLimitHit = .ok false → envY.queueSize = .ok n → n > 50 →
        (buyCallback envY uid st).1 = .errorMsg .SYSTEM_BUSY ∧
        Event.isMaintenanceMode ∉ (buyCallback envY uid st).2.2) ∧
      (∀ n, envY.rateLimitHit = .ok false → envY.queueSize = .ok n → ¬ n > 50 →
        envY.maintenance = .ok true →
        (buyCallback envY uid st).1 = .errorMsg .MAINTENANCE ∧
        Event.checkBlacklist ∉ (buyCallback envY uid st).2.2) ∧
      (∀ n s d, envY.rateLimitHit = .ok false → envY.queueSize = .ok n →
        ¬ n > 50 → envY.maintenance = .ok false →
        envY.blacklist = .ok (some (s, d)) → (s && d) = true →
        (buyCallback envY uid st).1 = .errorMsg .USER_BLACKLISTED)) ∧
      ((∀ k, Event.cacheGet k ∉ (balanceCallback envB uid st).2.2) ∧
        Event.checkBlacklist ∉ (balanceCallback envB uid st).2.2) ∧
      ((∀ k, Event.cacheGet k ∉ (worldInfoCallback envW uid st).2.2) ∧
        Event.checkBlacklist ∉ (worldInfoCallback envW uid st).2.2) ∧
      ((∀ k, Event.cacheGet k ∉ (historyCallback envH uid st).2.2) ∧
        Event.checkBlacklist ∉ (historyCallback envH uid st).2.2) := by
  intro uid st envR envY envB envW envH hlR hlY
  refine ⟨⟨fun hm => ?_, fun hm hr => ?_, fun bc hm hr hb hbt => ?_⟩,
    ⟨fun hr => ?_, fun n hr hq hn => ?_, fun n hr hq hn hm => ?_,
      fun n s d hr hq hn hm hb hsd => ?_⟩, ⟨?_, ?_⟩, ⟨?_, ?_⟩, ⟨?_, ?_⟩⟩
  · simp [registerCallback, runCallback_free _ _ hlR, registerBody, hm, responseOf]
  · simp [registerCallback, runCallback_free _ _ hlR, registerBody, hm, hr,
      responseOf, registerLimitKey]
  · simp [registerCallback, runCallback_free _ _ hlR, registerBody, hm, hr, hb,
      hbt, responseOf]
  · simp [buyCallback, runCallback_free _ _ hlY, buyBody, hr, responseOf,
      buyLimitKey]
  · simp [buyCallback, runCallback_free _ _ hlY, buyBody, hr, hq, hn, responseOf,
      buyLimitKey]
  · simp [buyCallback, runCallback_free _ _ hlY, buyBody, hr, hq, hn, hm,
      responseOf, buyLimitKey]
  · simp [buyCallback, runCallback_free _ _ hlY, buyBody, hr, hq, hn, hm, hb,
      hsd, responseOf]
  · intro k hmem
    by_cases hl : (uid, ActionKind.balance) ∈ st.held
    · simp [balanceCallback, runCallback_lock_held _ _ hl] at hmem
    · rw [balanceCallback, runCallback_free _ _ hl] at hmem
      have := balanceBody_events envB _ hmem
      simp at this
  · by_cases hl : (uid, ActionKind.balance) ∈ st.held
    · simp [balanceCallback, runCallback_lock_held _ _ hl]
    · rw [balanceCallback, runCallback_free _ _ hl]
      intro hmem
      have := balanceBody_events envB _ hmem
      simp at this
  · intro k hmem
    by_cases hl : (uid, ActionKind.worldInfo) ∈ st.held
    · simp [worldInfoCallback, runCallback_lock_held _ _ hl] at hmem
    · rw [worldInfoCallback, runCallback_free _ _ hl] at hmem
      have := worldInfoBody_events envW _ hmem
      simp at this
  · by_cases hl : (uid, ActionKind.worldInfo) ∈ st.held
    · simp [worldInfoCallback, runCallback_lock_held _ _ hl]
    · rw [worldInfoCallback, runCallback_free _ _ hl]
      intro hmem
      have := worldInfoBody_events envW _ hmem
      simp at this
  · intro k hmem
    by_cases hl : (uid, ActionKind.history) ∈ st.held
    · simp [historyCallback, runCallback_lock_held _ _ hl] at hmem
    · rw [historyCallback, runCallback_free _ _ hl] at hmem
      have := historyBody_events envH _ hmem
      simp at this
  · by_cases hl : (uid, ActionKind.history) ∈ st.held
    · simp [historyCallback, runCallback_lock_held _ _ hl]
    · rw [historyCallback, runCallback_free _ _ hl]
      intro hmem
      have := historyBody_events envH _ hmem
      simp at this

/-- Environments for the C4 witness. -/
def registerEnvRate : RegisterEnv := { registerEnvOk with rateLimitHit := .ok true }

def buyEnvRate : BuyEnv := { buyEnvOk with rateLimitHit := .ok true }

/-- Witness for the amended C4 at concrete inputs. -/
theorem C4_check_order_amended_witness :
    (registerCallback registerEnvMaint "42" ⟨[]⟩).1 = .errorMsg .MAINTENANCE ∧
    (registerCallback registerEnvRate "42" ⟨[]⟩).1 = .errorMsg .RATE_LIMIT ∧
    (buyCallback buyEnvRate "42" ⟨[]⟩).1 = .errorMsg .RATE_LIMIT := by
  obtain ⟨⟨hR1, _, _⟩, _, _, _, _⟩ := C4_check_order_amended "42" ⟨[]⟩
    registerEnvMaint buyEnvRate balanceEnvOk worldEnvOk historyEnvOk
    (by simp) (by simp)
  obtain ⟨⟨_, hR2, _⟩, ⟨hY1, _, _, _⟩, _, _, _⟩ := C4_check_order_amended "42" ⟨[]⟩
    registerEnvRate buyEnvRate balanceEnvOk worldEnvOk historyEnvOk
    (by simp) (by simp)
  exact ⟨(hR1 rfl).1, (hR2 rfl rfl).1, (hY1 rfl).1⟩

/-! ## LiveButtonManager: message reconciliation and startup -/

/-- Which embed a storefront message currently shows. -/
inductive EmbedKind where
  | stockEmbed
  | initPlaceholder
  | maintenancePlaceholder
  deriving DecidableEq, Repr

/-- Content of a message: the embed and whether the interactive view is
attached (`edit(view=None)` detaches it). -/
structure MContent where
  embed : EmbedKind
  hasView : Bool
  deriving DecidableEq, Repr

/-- Joint state of the `LiveButtonManager` (`current_message`), the stock
manager (`current_stock_message`, present or not), and the channel's
messages (`contents`, keyed by message id; `nextId` is the id `channel.send`
would assign next). -/
structure ManagerState where
  currentMessage : Option Nat
  stockMgrPresent : Bool
  stockMessage : Option Nat
  contents : List (Nat × MContent)
  nextId : Nat
  deriving DecidableEq, Repr

/-- Content lookup by message id. -/
def contentOf (l : List (Nat × MContent)) (m : Nat) : Option MContent :=
  match l with
  | [] => none
  | (i, c) :: rest => if i = m then some c else contentOf rest m

/-- `message.edit(embed=..., view=...)`: replace the content of message
`m`. -/
def setContent (l : List (Nat × MContent)) (m : Nat) (c : MContent) :
    List (Nat × MContent) :=
  (m, c) :: l.filter (fun p => p.1 ≠ m)

/-- `message.edit(view=...)`: reattach or detach only the view, keeping the
embed. -/
def setView (l : List (Nat × MContent)) (m : Nat) (v : Bool) :
    List (Nat × MContent) :=
  l.map (fun p => if p.1 = m then (p.1, ⟨p.2.embed, v⟩) else p)

lemma contentOf_setContent (l : List (Nat × MContent)) (m : Nat) (c : MContent) :
    contentOf (setContent l m c) m = some c := by
  simp [setContent, contentOf]

/-- Outcome of a `message.edit` call: success, `discord.NotFound`, or any
other exception. -/
inductive EditOutcome where
  | ok
  | notFound
  | raises
  deriving DecidableEq, Repr

/-- Outcome of `stock_manager.find_last_message()` under its 10s timeout. -/
inductive FindOutcome where
  | timesOut
  | raises
  | noneFound
  | found (m : Nat)
  deriving DecidableEq, Repr

/-- Environment of one `get_or_create_message` run: the behaviour of the
channel lookup, the edit of the stock manager's known message, the
last-message search, the two `create_stock_embed` calls and `channel.send`. -/
structure GocEnv where
  channelOk : Bool
  editStock : EditOutcome
  find : FindOutcome
  embedBOk : Bool
  editFound : EditOutcome
  embedCOk : Bool
  sendOk : Bool
  deriving DecidableEq, Repr

/-- The create-new-message tail of `get_or_create_message` (lines
1053-1077): build the embed (the stock embed when a stock manager is
attached — its failure aborts with `None` — else the initializing
placeholder), send it, record it as `current_message` and, when a stock
manager is attached, as its `current_stock_message`. -/
def gocCreate (env : GocEnv) (st : ManagerState) : Option Nat × ManagerState :=
  if st.stockMgrPresent = true ∧ ¬env.embedCOk = true then (none, st)
  else if env.sendOk then
    let m := st.nextId
    let kind := if st.stockMgrPresent then EmbedKind.stockEmbed
      else EmbedKind.initPlaceholder
    (some m,
      { st with
        currentMessage := some m
        stockMessage := if st.stockMgrPresent then some m else st.stockMessage
        contents := setContent st.contents m ⟨kind, true⟩
        nextId := st.nextId + 1 })
  else (none, st)

/-- The find-last-message step of `get_or_create_message` (lines 1033-1051):
when a stock manager is attached, search for the last valid message; on a
hit record it in both `current_message` and `current_stock_message` and
re-attach embed and view (an embed or edit failure falls through to
creation); otherwise fall through to creation. -/
def gocFind (env : GocEnv) (st : ManagerState) : Option Nat × ManagerState :=
  if st.stockMgrPresent then
    match env.find with
    | .found m =>
      let st1 := { st with currentMessage := some m, stockMessage := some m }
      if ¬env.embedBOk = true then gocCreate env st1
      else
        match env.editFound with
        | .ok =>
            (some m, { st1 with contents := setContent st1.contents m ⟨.stockEmbed, true⟩ })
        | .notFound => gocCreate env st1
        | .raises => gocCreate env st1
    | _ => gocCreate env st
  else gocCreate env st

/-- `LiveButtonManager.get_or_create_message` (lines 1006-1081): verify the
channel; reuse the stock manager's known message when present (a
`NotFound`/failing edit clears `current_message` and falls through); then
the find-last-message step and, failing that, creation. -/
def getOrCreateMessage (env : GocEnv) (st : ManagerState) :
    Option Nat × ManagerState :=
  if ¬env.channelOk = true then (none, st)
  else
    match st.stockMgrPresent, st.stockMessage with
    | true, some m =>
      let st1 := { st with currentMessage := some m }
      match env.editStock with
      | .ok => (some m, { st1 with contents := setView st1.contents m true })
      | .notFound => gocFind env { st1 with currentMessage := none }
      | .raises => gocFind env { st1 with currentMessage := none }
    | _, _ => gocFind env st

/-- Environment of one `force_update` run.  `updateStockOk` is the outcome
of `update_stock_display`, whose failure is logged and swallowed. -/
structure FuEnv where
  goc : GocEnv
  maintenance : Call Bool
  editMaintOk : Bool
  updateStockOk : Bool
  editView : EditOutcome
  deriving DecidableEq, Repr

/-- `LiveButtonManager.force_update` (lines 1083-1142): ensure a current
message exists (calling `get_or_create_message` and storing its result);
then, if maintenance mode is active, replace the content with the
maintenance placeholder and detach the view (`view=None`) and report
success; otherwise refresh the stock display (failures swallowed) and
re-attach a fresh view, clearing the cached handle when the message has
disappeared. -/
def forceUpdate (env : FuEnv) (st : ManagerState) : Bool × ManagerState :=
  let getRes :=
    match st.currentMessage with
    | some m => (some m, st)
    | none =>
      let r := getOrCreateMessage env.goc st
      (r.1, { r.2 with currentMessage := r.1 })
  match getRes.1 with
  | none => (false, getRes.2)
  | some m =>
    let st2 := getRes.2
    match env.maintenance with
    | .raises => (false, st2)
    | .ok true =>
      if env.editMaintOk then
        (true,
          { st2 with contents := setContent st2.contents m ⟨.maintenancePlaceholder, false⟩ })
      else (false, st2)
    | .ok false =>
      match env.editView with
      | .ok => (true, { st2 with contents := setView st2.contents m true })
      | .notFound => (false, { st2 with currentMessage := none })
      | .raises => (false, st2)

/-- C7: when maintenance mode is active and a current message exists,
`force_update` replaces that message's content with the maintenance
placeholder embed and detaches the interactive view entirely (no buttons),
keeps the handle, and reports success — regardless of the rest of the prior
state. -/
theorem C7_force_update_maintenance_degrade :
    ∀ (env : FuEnv) (st : ManagerState) (m : Nat),
      st.currentMessage = some m →
      env.maintenance = .ok true →
      env.editMaintOk = true →
      (forceUpdate env st).1 = true ∧
      contentOf (forceUpdate env st).2.contents m =
        some ⟨.maintenancePlaceholder, false⟩ ∧
      (forceUpdate env st).2.currentMessage = some m := by
  intro env st m hc hm he
  refine ⟨?_, ?_, ?_⟩ <;> simp [forceUpdate, hc, hm, he, contentOf_setContent]

/-- A benign reconciliation environment: channel found, known message edits
succeed. -/
def gocEnvOk : GocEnv :=
  { channelOk := true
    editStock := .ok
    find := .noneFound
    embedBOk := true
    editFound := .ok
    embedCOk := true
    sendOk := true }

/-- A manager state holding message 5 consistently with the stock
manager. -/
def mgrStMsg : ManagerState :=
  { currentMessage := some 5
    stockMgrPresent := true
    stockMessage := some 5
    contents := [(5, ⟨.stockEmbed, true⟩)]
    nextId := 6 }

/-- Environment for the C7 witness. -/
def fuEnvMaint : FuEnv :=
  { goc := gocEnvOk
    maintenance := .ok true
    editMaintOk := true
    updateStockOk := true
    editView := .ok }

/-- Witness for C7 at a concrete state. -/
theorem C7_force_update_maintenance_degrade_witness :
    (forceUpdate fuEnvMaint mgrStMsg).1 = true ∧
    contentOf (forceUpdate fuEnvMaint mgrStMsg).2.contents 5 =
      some ⟨.maintenancePlaceholder, false⟩ ∧
    (forceUpdate fuEnvMaint mgrStMsg).2.currentMessage = some 5 :=
  C7_force_update_maintenance_degrade fuEnvMaint mgrStMsg 5 rfl rfl rfl

/-- current_message and current_stock_message agree (when a stock manager is
attached). -/
def msgConsistent (st : ManagerState) : Prop :=
  st.stockMgrPresent = true → st.currentMessage = st.stockMessage

/-- The stale-handle environment for the C9 counterexample: the stock
manager's known message no longer exists (`editStock = notFound`), no prior
message is found, and creating a new one fails (`channel.send` raises). -/
def gocEnvStale : GocEnv :=
  { channelOk := true
    editStock := .notFound
    find := .noneFound
    embedBOk := true
    editFound := .ok
    embedCOk := true
    sendOk := false }

/-- C9 counterexample: the claim says every path keeps the manager's
`current_message` and the stock manager's `current_stock_message` consistent
with each other.  Starting from a consistent state, a run in which the known
handle is stale and recreation fails returns `None`, clears
`current_message`, but leaves the stale handle in
`current_stock_message`. -/
theorem C9_consistency_cex :
    msgConsistent mgrStMsg ∧
    (getOrCreateMessage gocEnvStale mgrStMsg).1 = none ∧
    (getOrCreateMessage gocEnvStale mgrStMsg).2.currentMessage = none ∧
    (getOrCreateMessage gocEnvStale mgrStMsg).2.stockMessage = some 5 ∧
    ¬ msgConsistent (getOrCreateMessage gocEnvStale mgrStMsg).2 := by
  refine ⟨fun _ => rfl, rfl, rfl, rfl, fun h => ?_⟩
  exact absurd (h rfl) (by decide)

lemma gocCreate_some {env : GocEnv} {st : ManagerState} {r : Nat}
    (h : (gocCreate env st).1 = some r) :
    (gocCreate env st).2.currentMessage = some r ∧
    ((gocCreate env st).2.stockMgrPresent = true →
      (gocCreate env st).2.stockMessage = some r) := by
  by_cases h1 : st.stockMgrPresent = true ∧ ¬env.embedCOk = true
  · simp [gocCreate, h1] at h
  · by_cases h2 : env.sendOk = true
    · simp only [gocCreate, h1, h2, if_false, if_true, ite_false, ite_true] at h ⊢
      simp only [Option.some.injEq] at h
      subst h
      refine ⟨by simp, fun hp => ?_⟩
      simp only at hp
      simp [hp]
    · simp [gocCreate, h1, h2] at h

lemma gocFind_some {env : GocEnv} {st : ManagerState} {r : Nat}
    (h : (gocFind env st).1 = some r) :
    (gocFind env st).2.currentMessage = some r ∧
    ((gocFind env st).2.stockMgrPresent = true →
      (gocFind env st).2.stockMessage = some r) := by
  by_cases hp : st.stockMgrPresent = true
  · rcases hf : env.find with _ | _ | _ | m
    · simp only [gocFind, hp, hf, if_true, ite_true] at h ⊢
      exact gocCreate_some h
    · simp only [gocFind, hp, hf, if_true, ite_true] at h ⊢
      exact gocCreate_some h
    · simp only [gocFind, hp, hf, if_true, ite_true] at h ⊢
      exact gocCreate_some h
    · by_cases hb : ¬env.embedBOk = true
      · simp only [gocFind, hp, hf, hb, if_true, ite_true] at h ⊢
        exact gocCreate_some h
      · rcases he : env.editFound with _ | _ | _
        · simp only [gocFind, hp, hf, hb, he, if_true, ite_true, if_false,
            ite_false] at h ⊢
          simp only [Option.some.injEq] at h
          subst h
          exact ⟨by simp, fun _ => by simp⟩
        · simp only [gocFind, hp, hf, hb, he, if_true, ite_true, if_false,
            ite_false] at h ⊢
          exact gocCreate_some h
        · simp only [gocFind, hp, hf, hb, he, if_true, ite_true, if_false,
            ite_false] at h ⊢
          exact gocCreate_some h
  · have hp' : st.stockMgrPresent = false := by
      cases hh : st.stockMgrPresent
      · rfl
      · exact absurd hh hp
    simp only [gocFind, hp', Bool.false_eq_true, if_false, ite_false] at h ⊢
    exact gocCreate_some h

lemma getOrCreateMessage_some {env : GocEnv} {st : ManagerState} {r : Nat}
    (h : (getOrCreateMessage env st).1 = some r) :
    (getOrCreateMessage env st).2.currentMessage = some r ∧
    ((getOrCreateMessage env st).2.stockMgrPresent = true →
      (getOrCreateMessage env st).2.stockMessage = some r) := by
  by_cases hc : env.channelOk = true
  · cases hp : st.stockMgrPresent
    · simp only [getOrCreateMessage, hc, hp, not_true, Bool.false_eq_true,
        if_false, ite_false] at h ⊢
      exact gocFind_some h
    · cases hs : st.stockMessage with
      | none =>
        simp only [getOrCreateMessage, hc, hp, hs, not_true, if_false,
          ite_false] at h ⊢
        exact gocFind_some h
      | some m =>
        rcases he : env.editStock with _ | _ | _
        · simp only [getOrCreateMessage, hc, hp, hs, he, not_true, if_false,
            ite_false] at h ⊢
          simp only [Option.some.injEq] at h
          subst h
          exact ⟨by simp, fun _ => by simp [hs]⟩
        · simp only [getOrCreateMessage, hc, hp, hs, he, not_true, if_false,
            ite_false] at h ⊢
          exact gocFind_some h
        · simp only [getOrCreateMessage, hc, hp, hs, he, not_true, if_false,
            ite_false] at h ⊢
          exact gocFind_some h
  · simp [getOrCreateMessage, hc] at h

/-- C9 amended: with a valid existing message known to the stock manager,
`get_or_create_message` is idempotent — both of two consecutive calls return
that same handle and no message is created (`nextId` unchanged) — and every
invocation that returns a handle leaves `current_message` equal to it and,
when a stock manager is attached, `current_stock_message` too.  A failing
invocation (returning `None`) may instead leave the stock manager's stale
handle in place while `current_message` is cleared (see the
counterexample). -/
theorem C9_get_or_create_idempotent_amended :
    ∀ (env : GocEnv) (st : ManagerState) (m : Nat),
      (env.channelOk = true → env.editStock = .ok →
        st.stockMgrPresent = true → st.stockMessage = some m →
        (getOrCreateMessage env st).1 = some m ∧
        (getOrCreateMessage env st).2.nextId = st.nextId ∧
        (getOrCreateMessage env (getOrCreateMessage env st).2).1 = some m ∧
        (getOrCreateMessage env (getOrCreateMessage env st).2).2.nextId = st.nextId) ∧
      (∀ r, (getOrCreateMessage env st).1 = some r →
        (getOrCreateMessage env st).2.currentMessage = some r ∧
        ((getOrCreateMessage env st).2.stockMgrPresent = true →
          (getOrCreateMessage env st).2.stockMessage = some r)) := by
  intro env st m
  constructor
  · intro hc he hp hs
    refine ⟨?_, ?_, ?_, ?_⟩ <;> simp [getOrCreateMessage, hc, he, hp, hs]
  · intro r h
    exact getOrCreateMessage_some h

/-- Witness for the amended C9 at a concrete state: both calls return
message 5 and nothing is created. -/
theorem C9_get_or_create_idempotent_amended_witness :
    (getOrCreateMessage gocEnvOk mgrStMsg).1 = some 5 ∧
    (getOrCreateMessage gocEnvOk (getOrCreateMessage gocEnvOk mgrStMsg).2).1 = some 5 ∧
    (getOrCreateMessage gocEnvOk (getOrCreateMessage gocEnvOk mgrStMsg).2).2.nextId =
      mgrStMsg.nextId := by
  obtain ⟨h1, _, h3, h4⟩ :=
    (C9_get_or_create_idempotent_amended gocEnvOk mgrStMsg 5).1 rfl rfl rfl rfl
  exact ⟨h1, h3, h4⟩

/-- Behaviour of one iteration of the `initialize` retry loop: the
`setup_dependencies()` call returns `True`, returns `False` without raising,
exceeds the 20s `asyncio.timeout`, or raises some other exception. -/
inductive AttemptOutcome where
  | succeeds
  | returnsFalse
  | timesOut
  | raises
  deriving DecidableEq, Repr

/-- The `while initialization_retries < max_initialization_retries` loop of
`LiveButtonManager.initialize` (lines 916-937).  Mirrors the code exactly:
the retry counter is incremented in the two `except` branches only — an
iteration on which `setup_dependencies` merely returns `False` does not
increment it.  `fuel` bounds how many iterations we observe; `none` means
the loop is still running after `fuel` iterations. -/
def initRetryLoop (fuel : Nat) (env : Nat → AttemptOutcome)
    (attempt retries maxRetries : Nat) : Option Bool :=
  match fuel with
  | 0 => none
  | Nat.succ f =>
    if retries < maxRetries then
      match env attempt with
      | .succeeds => some true
      | .returnsFalse => initRetryLoop f env (attempt + 1) retries maxRetries
      | .timesOut => initRetryLoop f env (attempt + 1) (retries + 1) maxRetries
      | .raises => initRetryLoop f env (attempt + 1) (retries + 1) maxRetries
    else some false

/-- `LiveButtonManager.initialize` as entered with
`initialization_retries = 0` and `max_initialization_retries = 3`. -/
def initManager (fuel : Nat) (env : Nat → AttemptOutcome) : Option Bool :=
  initRetryLoop fuel env 0 0 3

lemma initRetryLoop_returnsFalse_none :
    ∀ (fuel attempt retries : Nat), retries < 3 →
      initRetryLoop fuel (fun _ => AttemptOutcome.returnsFalse) attempt retries 3 = none := by
  intro fuel
  induction fuel with
  | zero => intro a r h; rfl
  | succ f ih =>
    intro a r h
    simp only [initRetryLoop, if_pos h]
    exact ih (a + 1) r h

/-- C8: the claim says `initialize` terminates for every behaviour of its
dependencies, making at most 3 attempts and returning a hard failure after
exhausting them.  The loop does behave that way when attempts raise or time
out (second conjunct: three timed-out attempts then `False`), but the retry
counter is only incremented in the two `except` branches: when
`setup_dependencies` returns `False` without raising (e.g. `LiveStockCog`
missing, the stock manager never ready, or the channel unresolvable) no
counter moves and the loop never exits (first conjunct: still running after
any number of iterations).  The claim matches the evident intent
(`max_initialization_retries = 3`); the code is the bug. -/
theorem C8_init_bounded_retries :
    (∀ fuel, initManager fuel (fun _ => AttemptOutcome.returnsFalse) = none) ∧
    initManager 4 (fun _ => AttemptOutcome.timesOut) = some false ∧
    initManager 4 (fun _ => AttemptOutcome.raises) = some false := by
  refine ⟨fun fuel => initRetryLoop_returnsFalse_none fuel 0 0 (by omega), rfl, rfl⟩

end LiveButtons
